import Mathlib

/-!
Shallow embedding of the financial-statement transformation logic of
`src/app.py`: cell value resolution (the inner `get_value` helpers),
ratio derivation (`calculate_financial_indicators`), detail extraction
(`extract_detail_data` with its `calc_change` helper), and company
search (`search_companies`).

Modelling conventions: numeric values are `ℚ` (the Python code works on
IEEE doubles; every claim-relevant computation here is exact decimal
arithmetic), cells are strings / numbers / Python `None`, Python
`float(...)` parsing is `parseFloat` (plain signed decimal strings, the
format occurring in the statement tables), and Python's `str.replace`
is `pyReplace`.  `f"{x:.nf}"` formatting is modelled with exact
round-half-to-even on `ℚ` (`roundHalfEven`), and `f"{x:,.0f}"` by
`fmtComma0`.
-/

attribute [local semireducible] Rat.add Rat.sub Rat.mul Rat.inv

/-- Python `str.replace` (non-overlapping, left to right) on character
lists, fuel-indexed; each step consumes at least one character when the
pattern is nonempty, so `fuel = length` suffices. -/
def replaceFuel (pat rep : List Char) : Nat → List Char → List Char
  | _, [] => []
  | 0, l => l
  | fuel + 1, c :: rest =>
    if pat.isPrefixOf (c :: rest) then
      rep ++ replaceFuel pat rep fuel (rest.drop (pat.length - 1))
    else c :: replaceFuel pat rep fuel rest

/-- Python `s.replace(pat, rep)` for nonempty `pat`. -/
def pyReplace (s pat rep : String) : String :=
  String.mk (replaceFuel pat.toList rep.toList s.toList.length s.toList)

/-- `s.replace(',', '')` -/
def stripCommas (s : String) : String := pyReplace s "," ""

/-- `s.replace(',', '').replace('--', '0')` (src/app.py:68) -/
def cleanNumStr (s : String) : String := pyReplace (pyReplace s "," "") "--" "0"

/-- The decimal digit character for `d < 10`. -/
def digitChar (d : Nat) : Char := Char.ofNat (48 + d)

/-- Decimal digits of a natural number (most significant first),
prepended to `acc`; fuel-indexed, `fuel = n + 1` always suffices. -/
def natDigitsAux : Nat → Nat → List Char → List Char
  | 0, _, acc => acc
  | fuel + 1, n, acc =>
    if n < 10 then digitChar n :: acc
    else natDigitsAux fuel (n / 10) (digitChar (n % 10) :: acc)

/-- Decimal digit characters of a natural number. -/
def natDigits (n : Nat) : List Char := natDigitsAux (n + 1) n []

/-- Numeric value of a list of decimal digit characters. -/
def dval (cs : List Char) : Nat := cs.foldl (fun a c => a * 10 + (c.toNat - 48)) 0

/-- Is `c` a decimal digit character (code points 48-57)? -/
def isDig (c : Char) : Bool := 48 ≤ c.toNat && c.toNat ≤ 57

/-- Parse a nonempty all-digit character list. -/
def parseNatDigits (cs : List Char) : Option Nat :=
  if cs.isEmpty then Option.none
  else if cs.all isDig then some (dval cs) else Option.none

/-- Split a character list at the first `'.'` (the remainder keeps any
further dots, which then fail the digit check, as a second dot makes a
Python float literal invalid). -/
def splitAtDot : List Char → List Char × Option (List Char)
  | [] => ([], Option.none)
  | c :: cs =>
    if c = '.' then ([], some cs)
    else
      let r := splitAtDot cs
      (c :: r.1, r.2)

/-- Unsigned part of Python `float(...)` on plain decimal strings:
digits, optionally with one decimal point; one side of the point may be
empty but not both. -/
def parseUnsigned (cs : List Char) : Option ℚ :=
  match splitAtDot cs with
  | (ip, Option.none) => (parseNatDigits ip).map (fun n => (n : ℚ))
  | (ip, some fp) =>
    if ip.isEmpty && fp.isEmpty then Option.none
    else
      match (if ip.isEmpty then some 0 else parseNatDigits ip),
            (if fp.isEmpty then some 0 else parseNatDigits fp) with
      | some i, some f => some ((i : ℚ) + (f : ℚ) / (10 : ℚ) ^ fp.length)
      | _, _ => Option.none

/-- Python `float(...)` on a character list: optional sign, then the
unsigned decimal part.  `Option.none` models a raised `ValueError`. -/
def parseFloatChars : List Char → Option ℚ
  | [] => Option.none
  | c :: cs =>
    if c = '-' then (parseUnsigned cs).map (fun q => -q)
    else if c = '+' then parseUnsigned cs
    else parseUnsigned (c :: cs)

/-- Python `float(s)` on plain signed decimal strings. -/
def parseFloat (s : String) : Option ℚ := parseFloatChars s.toList

/-- Absolute value on `ℚ` by case split (kernel-reducible). -/
def qabs (q : ℚ) : ℚ := if q < 0 then -q else q

/-- Round half to even (banker's rounding), as Python string formatting
does on the exactly-representable values arising here. -/
def roundHalfEven (q : ℚ) : ℤ :=
  let f := Rat.floor q
  let r := q - (f : ℚ)
  if r < 1 / 2 then f
  else if 1 / 2 < r then f + 1
  else if f % 2 = 0 then f else f + 1

/-- Left-pad a digit list with `'0'` to length `n`. -/
def padZeros (cs : List Char) (n : Nat) : List Char :=
  List.replicate (n - cs.length) '0' ++ cs

/-- Python `f"{q:.ndf}"`: fixed-point with `nd` decimals. -/
def fmtFixed (q : ℚ) (nd : Nat) : String :=
  let m := (roundHalfEven (qabs q * (10 : ℚ) ^ nd)).toNat
  let sgn := if q < 0 then "-" else ""
  if nd = 0 then sgn ++ String.mk (natDigits m)
  else
    sgn ++ String.mk (natDigits (m / 10 ^ nd)) ++ "." ++
      String.mk (padZeros (natDigits (m % 10 ^ nd)) nd)

/-- Python `f"{q:+.ndf}"`: like `fmtFixed` with an explicit sign. -/
def fmtSigned (q : ℚ) (nd : Nat) : String :=
  if q < 0 then fmtFixed q nd else "+" ++ fmtFixed q nd

/-- Insert a comma before every fourth, seventh, ... character of a
reversed digit list (helper for thousands grouping). -/
def groupChunks : List Char → Nat → List Char
  | [], _ => []
  | c :: rest, 0 => ',' :: c :: groupChunks rest 2
  | c :: rest, k + 1 => c :: groupChunks rest k

/-- Thousands grouping of a digit list. -/
def insertCommas (cs : List Char) : List Char := (groupChunks cs.reverse 3).reverse

/-- Python `f"{q:,.0f}"`: comma-grouped integer rendering. -/
def fmtComma0 (q : ℚ) : String :=
  let m := (roundHalfEven (qabs q)).toNat
  (if q < 0 then "-" else "") ++ String.mk (insertCommas (natDigits m))

/-- A cell of a statement table: a string, a number, or Python `None`. -/
inductive CellVal where
  | str (s : String)
  | num (q : ℚ)
  | none
deriving DecidableEq

/-- A statement table (pandas DataFrame): column names (index 0 is the
label column) and rows of cells indexed parallel to the columns. -/
structure Table where
  cols : List String
  rows : List (List CellVal)
deriving DecidableEq

/-- Does the first cell of the row (the label column) equal `name`?
(`df.iloc[:, 0] == row_name`). -/
def rowMatches (r : List CellVal) (name : String) : Bool :=
  match r.head? with
  | some (CellVal.str s) => s == name
  | _ => false

/-- First row whose label cell equals `name`
(`df[df.iloc[:, 0] == row_name]` followed by `.iloc[0]`). -/
def lookupRow (t : Table) (name : String) : Option (List CellVal) :=
  t.rows.find? (fun r => rowMatches r name)

/-- `row[col]`: index the row by column label; `Option.none` models a
raised `KeyError` (column absent) or a short row. -/
def getCell (t : Table) (row : List CellVal) (col : String) : Option CellVal :=
  (t.cols.findIdx? (fun c => c == col)).bind (fun i => row.get? i)

/-- `pandas.DataFrame.empty`. -/
def tableEmpty (t : Table) : Bool := t.rows.isEmpty || t.cols.isEmpty

/-- The inner `get_value` of `calculate_financial_indicators`
(src/app.py:61-73): look the row up, clean a string cell with
`.replace(',', '').replace('--', '0')`, return `0` for a missing row,
an empty/dash/`None` value, any exception, or a parse failure. -/
def get_value (df : Table) (row_name col : String) : ℚ :=
  match lookupRow df row_name with
  | Option.none => 0
  | some row =>
    match getCell df row col with
    | Option.none => 0
    | some CellVal.none => 0
    | some (CellVal.num q) => q
    | some (CellVal.str s) =>
      let v := cleanNumStr s
      if v = "" ∨ v = "--" then 0
      else
        match parseFloat v with
        | some q => q
        | Option.none => 0

/-- The inner `get_value` of `extract_detail_data` (src/app.py:182-194):
like the ratio resolver but formats a found value with `f"{...:,.0f}"`
and yields the sentinel `"缺失"` for a missing row, empty/dash/`None`
value, any exception, or a parse failure. -/
def get_value_detail (df : Table) (row_name col : String) : String :=
  match lookupRow df row_name with
  | Option.none => "缺失"
  | some row =>
    match getCell df row col with
    | Option.none => "缺失"
    | some CellVal.none => "缺失"
    | some (CellVal.num q) => fmtComma0 q
    | some (CellVal.str s) =>
      let v := stripCommas s
      if v = "" ∨ v = "--" then "缺失"
      else
        match parseFloat v with
        | some q => fmtComma0 q
        | Option.none => "缺失"

/-- `calc_change` of `extract_detail_data` (src/app.py:196-207): the
sentinel propagates, a zero re-parsed previous value yields `"N/A"`,
otherwise the signed relative percent delta with 0 decimals; any
exception (re-parse failure) yields the sentinel. -/
def calc_change (current previous : String) : String :=
  if current = "缺失" ∨ previous = "缺失" then "缺失"
  else
    match parseFloat (stripCommas current) with
    | Option.none => "缺失"
    | some c =>
      match parseFloat (stripCommas previous) with
      | Option.none => "缺失"
      | some p =>
        if p = 0 then "N/A"
        else fmtSigned ((c - p) / p * 100) 0 ++ "%"

/-- `num / den * 100` guarded by `den > 0`, else `0` (the debt-ratio and
current-ratio pattern, src/app.py:108-109, 120-121). -/
def pctOrZero (num den : ℚ) : ℚ := if 0 < den then num / den * 100 else 0

/-- `num / den` guarded by `den > 0`, else `0` (the turnover-ratio
pattern, src/app.py:112-117, 124-125). -/
def ratioOrZero (num den : ℚ) : ℚ := if 0 < den then num / den else 0

/-- `'up' if c > p else 'down' if c < p else 'neutral'` on the raw
(pre-formatting) ratio values. -/
def trendOf (c p : ℚ) : String :=
  if p < c then "up" else if c < p then "down" else "neutral"

/-- `f"{(c - p) / p * 100:+.0f}%" if p > 0 else "N/A"` — the relative
change string of the three turnover-style ratios. -/
def relChangeStr (c p : ℚ) : String :=
  if 0 < p then fmtSigned ((c - p) / p * 100) 0 ++ "%" else "N/A"

/-- One entry of `coreIndicators` (value / previous / trend / change). -/
structure RatioEntry where
  value : String
  previous : String
  trend : String
  change : String
deriving DecidableEq

/-- Percent-formatted entry with absolute point-delta change, `nd`
decimals (debt ratio with `nd = 1`, current ratio with `nd = 0`). -/
def absChangeEntry (c p : ℚ) (nd : Nat) : RatioEntry :=
  ⟨fmtFixed c nd ++ "%", fmtFixed p nd ++ "%", trendOf c p, fmtSigned (c - p) nd ++ "%"⟩

/-- Plain 1-decimal entry with relative percent change or `"N/A"`
(payable turnover, profit-to-cash rate, receivable turnover). -/
def relChangeEntry (c p : ℚ) : RatioEntry :=
  ⟨fmtFixed c 1, fmtFixed p 1, trendOf c p, relChangeStr c p⟩

/-- One detail line item (current / previous / change strings). -/
structure DetailItem where
  current : String
  previous : String
  change : String
deriving DecidableEq

/-- The ordinary detail item: two formatted lookups and their change. -/
def detailItemFor (df : Table) (name cc pc : String) : DetailItem :=
  let current := get_value_detail df name cc
  let previous := get_value_detail df name pc
  ⟨current, previous, calc_change current previous⟩

/-- The computed `'流动比率'` pseudo-row of the `'cash'` category
(src/app.py:230-245): current assets / current liabilities × 100 per
period, each rendered `f"{...:.0f}%"`, the change parsed back out of
the two percent strings; any failure (parse failure of an input, i.e. a
`"缺失"` side, or division by zero) makes all three fields `"缺失"`. -/
def currentRatioRow (balance : Table) (cc pc : String) : DetailItem :=
  let ca_c := get_value_detail balance "流动资产合计" cc
  let cl_c := get_value_detail balance "流动负债合计" cc
  let ca_p := get_value_detail balance "流动资产合计" pc
  let cl_p := get_value_detail balance "流动负债合计" pc
  match parseFloat (stripCommas ca_c), parseFloat (stripCommas cl_c),
        parseFloat (stripCommas ca_p), parseFloat (stripCommas cl_p) with
  | some a, some l, some a2, some l2 =>
    if l = 0 ∨ l2 = 0 then ⟨"缺失", "缺失", "缺失"⟩
    else
      let rc := fmtFixed (a / l * 100) 0 ++ "%"
      let rp := fmtFixed (a2 / l2 * 100) 0 ++ "%"
      match parseFloat (rc.dropRight 1), parseFloat (rp.dropRight 1) with
      | some vc, some vp => ⟨rc, rp, fmtSigned (vc - vp) 0 ++ "%"⟩
      | _, _ => ⟨"缺失", "缺失", "缺失"⟩
  | _, _, _, _ => ⟨"缺失", "缺失", "缺失"⟩

/-- `extract_detail_data` (src/app.py:180-300): the four hard-coded
category item lists, in source order, with the `'流动比率'` pseudo-row
in `'cash'`; an unknown category yields the empty mapping. -/
def extract_detail_data (balance cashflow income : Table)
    (current_col previous_col : String) (category : String) :
    List (String × DetailItem) :=
  if category = "cash" then
    [("货币资金", detailItemFor balance "货币资金" current_col previous_col),
     ("流动负债合计", detailItemFor balance "流动负债合计" current_col previous_col),
     ("流动比率", currentRatioRow balance current_col previous_col),
     ("经营活动产生的现金流量净额",
       detailItemFor cashflow "经营活动产生的现金流量净额" current_col previous_col),
     ("净利润", detailItemFor income "净利润" current_col previous_col),
     ("营业成本", detailItemFor income "营业成本" current_col previous_col)]
  else if category = "supply" then
    [("应付账款", detailItemFor balance "应付账款" current_col previous_col),
     ("预付款项", detailItemFor balance "预付款项" current_col previous_col),
     ("应付票据", detailItemFor balance "应付票据" current_col previous_col)]
  else if category = "profit" then
    [("净利润", detailItemFor income "净利润" current_col previous_col),
     ("营业收入", detailItemFor income "营业收入" current_col previous_col),
     ("营业成本", detailItemFor income "营业成本" current_col previous_col),
     ("营业利润", detailItemFor income "营业利润" current_col previous_col),
     ("利润总额", detailItemFor income "利润总额" current_col previous_col)]
  else if category = "other" then
    [("应收账款", detailItemFor balance "应收账款" current_col previous_col),
     ("存货", detailItemFor balance "存货" current_col previous_col),
     ("固定资产", detailItemFor balance "固定资产" current_col previous_col),
     ("无形资产", detailItemFor balance "无形资产" current_col previous_col),
     ("资产总计", detailItemFor balance "资产总计" current_col previous_col),
     ("负债合计", detailItemFor balance "负债合计" current_col previous_col)]
  else []

/-- The five core indicator entries. -/
structure CoreIndicators where
  debtRatio : RatioEntry
  payableTurnover : RatioEntry
  profitCashRate : RatioEntry
  currentRatio : RatioEntry
  receivableTurnover : RatioEntry
deriving DecidableEq

/-- The four detail categories of the result. -/
structure DetailData where
  cashFlowRisk : List (String × DetailItem)
  supplyChainRisk : List (String × DetailItem)
  profitabilityRisk : List (String × DetailItem)
  otherRisk : List (String × DetailItem)
deriving DecidableEq

/-- The full `result` dictionary of `calculate_financial_indicators`. -/
structure FinancialData where
  report_date : String
  previous_date : String
  coreIndicators : CoreIndicators
  detailData : DetailData
deriving DecidableEq

/-- `current_col = balance.columns[1]` (src/app.py:55). -/
def currentColOf (balance : Table) : String := balance.cols.getD 1 ""

/-- `previous_col = balance.columns[2] if len(balance.columns) > 2 else
balance.columns[1]` (src/app.py:56). -/
def previousColOf (balance : Table) : String :=
  if 2 < balance.cols.length then balance.cols.getD 2 "" else balance.cols.getD 1 ""

/-- The body of `calculate_financial_indicators` after the fetch and
column-count guards (src/app.py:55-172): period-column selection, the
twenty `get_value` extractions, the five guarded ratios per period, and
the result record.  (`cash_current` / `cash_previous` are extracted by
the source but unused in any ratio and so are omitted here.) -/
def buildFinancialData (balance income cashflow : Table) : FinancialData :=
  let current_col := currentColOf balance
  let previous_col := previousColOf balance
  let total_assets_current := get_value balance "资产总计" current_col
  let total_assets_previous := get_value balance "资产总计" previous_col
  let total_liabilities_current := get_value balance "负债合计" current_col
  let total_liabilities_previous := get_value balance "负债合计" previous_col
  let current_assets := get_value balance "流动资产合计" current_col
  let current_assets_previous := get_value balance "流动资产合计" previous_col
  let current_liabilities := get_value balance "流动负债合计" current_col
  let current_liabilities_previous := get_value balance "流动负债合计" previous_col
  let accounts_payable_current := get_value balance "应付账款" current_col
  let accounts_payable_previous := get_value balance "应付账款" previous_col
  let accounts_receivable_current := get_value balance "应收账款" current_col
  let accounts_receivable_previous := get_value balance "应收账款" previous_col
  let revenue_current := get_value income "营业收入" current_col
  let revenue_previous := get_value income "营业收入" previous_col
  let net_profit_current := get_value income "净利润" current_col
  let net_profit_previous := get_value income "净利润" previous_col
  let operating_cost_current := get_value income "营业成本" current_col
  let operating_cost_previous := get_value income "营业成本" previous_col
  let operating_cashflow_current := get_value cashflow "经营活动产生的现金流量净额" current_col
  let operating_cashflow_previous := get_value cashflow "经营活动产生的现金流量净额" previous_col
  { report_date := current_col
    previous_date := previous_col
    coreIndicators :=
      { debtRatio :=
          absChangeEntry (pctOrZero total_liabilities_current total_assets_current)
            (pctOrZero total_liabilities_previous total_assets_previous) 1
        payableTurnover :=
          relChangeEntry (ratioOrZero operating_cost_current accounts_payable_current)
            (ratioOrZero operating_cost_previous accounts_payable_previous)
        profitCashRate :=
          relChangeEntry (ratioOrZero operating_cashflow_current net_profit_current)
            (ratioOrZero operating_cashflow_previous net_profit_previous)
        currentRatio :=
          absChangeEntry (pctOrZero current_assets current_liabilities)
            (pctOrZero current_assets_previous current_liabilities_previous) 0
        receivableTurnover :=
          relChangeEntry (ratioOrZero revenue_current accounts_receivable_current)
            (ratioOrZero revenue_previous accounts_receivable_previous) }
    detailData :=
      { cashFlowRisk := extract_detail_data balance cashflow income current_col previous_col "cash"
        supplyChainRisk := extract_detail_data balance cashflow income current_col previous_col "supply"
        profitabilityRisk := extract_detail_data balance cashflow income current_col previous_col "profit"
        otherRisk := extract_detail_data balance cashflow income current_col previous_col "other" } }

/-- `calculate_financial_indicators` (src/app.py:26-178) over the three
fetch outcomes (an `Except.error` models an exception raised by the
provider call, absorbed by the outer `try`/`except` into `None`); the
emptiness and column-count guards also yield `None`. -/
def calculate_financial_indicators
    (balance income cashflow : Except String Table) : Option FinancialData :=
  match balance, income, cashflow with
  | Except.ok b, Except.ok i, Except.ok cf =>
    if tableEmpty b then Option.none
    else if tableEmpty i then Option.none
    else if tableEmpty cf then Option.none
    else if b.cols.length < 2 then Option.none
    else some (buildFinancialData b i cf)
  | _, _, _ => Option.none

/-- Python `str.strip()`: drop leading and trailing whitespace. -/
def pyStrip (s : String) : String :=
  String.mk (((s.toList.dropWhile Char.isWhitespace).reverse.dropWhile
    Char.isWhitespace).reverse)

/-- A token of the modelled regular-expression fragment: a literal
character or the `'.'` wildcard. -/
inductive RTok where
  | lit (c : Char)
  | dot
deriving DecidableEq

/-- Python regex metacharacters, by code point:
`. ^ $ * + ? { } [ ] \ | ( )`. -/
def isMetaChar (c : Char) : Bool :=
  c.toNat ∈ [46, 94, 36, 42, 43, 63, 123, 125, 91, 93, 92, 124, 40, 41]

/-- Compile a query into the modelled fragment: `'.'` (code point 46)
becomes the wildcard, every other character a literal.  Faithful to
Python `re` exactly when `'.'` is the only metacharacter present. -/
def toPattern (q : String) : List RTok :=
  q.toList.map (fun c => if c.toNat = 46 then RTok.dot else RTok.lit c)

/-- Token-against-character match; the wildcard matches everything but
a newline (code point 10), as Python `'.'` does without `re.DOTALL`. -/
def tokMatch : RTok → Char → Bool
  | RTok.lit a, c => a == c
  | RTok.dot, c => c.toNat != 10

/-- Match a pattern against a prefix of the text. -/
def rmatchAt : List RTok → List Char → Bool
  | [], _ => true
  | _ :: _, [] => false
  | t :: ts, c :: cs => tokMatch t c && rmatchAt ts cs

/-- `re.search` over the fragment: match at some position. -/
def rsearch (p : List RTok) : List Char → Bool
  | [] => rmatchAt p []
  | c :: cs => rmatchAt p (c :: cs) || rsearch p cs

/-- `pandas.Series.str.contains(q)` (regex semantics) on one string. -/
def strContains (s q : String) : Bool := rsearch (toPattern q) s.toList

/-- The matching and truncation logic of `search_companies`
(src/app.py:306-336): strip the query, empty query yields `[]`,
otherwise keep directory entries whose code or name matches the query
under `str.contains` (a regex search), first 10, provider order. -/
def search_companies (query : String) (directory : List (String × String)) :
    List (String × String) :=
  let q := pyStrip query
  if q = "" then []
  else (directory.filter (fun e => strContains e.1 q || strContains e.2 q)).take 10

/-- Case-sensitive substring containment on character lists. -/
def isSubstrChars (q : List Char) : List Char → Bool
  | [] => q.isEmpty
  | c :: cs => q.isPrefixOf (c :: cs) || isSubstrChars q cs

/-- Case-sensitive substring containment on strings. -/
def isSubstrOf (q s : String) : Bool := isSubstrChars q.toList s.toList

/-- Modelled from the spec (§4.4): company search by case-sensitive
*substring* containment on code or name, at most 10 matches, provider
order.  This is the spec's wording; the source instead applies
`str.contains`, i.e. regex matching. -/
def search_companies_spec (query : String) (directory : List (String × String)) :
    List (String × String) :=
  let q := pyStrip query
  if q = "" then []
  else (directory.filter (fun e => isSubstrOf q e.1 || isSubstrOf q e.2)).take 10

/-- Modelled from the spec (§4.1): the cell value resolver as worded —
first row whose label equals `label` (else 0), comma stripping and
dash-to-`"0"` mapping on string cells, empty value and every lookup or
parse failure resolve to 0. -/
def resolveSpec (t : Table) (label period : String) : ℚ :=
  match lookupRow t label with
  | Option.none => 0
  | some row =>
    match getCell t row period with
    | Option.none => 0
    | some cell =>
      match cell with
      | CellVal.none => 0
      | CellVal.num q => q
      | CellVal.str s =>
        let v := cleanNumStr s
        if v = "" then 0 else (parseFloat v).getD 0

/-- A string a detail-side lookup can produce: the missing sentinel or
a comma-grouped formatted number. -/
def isFormattedVal (v : String) : Prop := v = "缺失" ∨ ∃ q : ℚ, v = fmtComma0 q

/-- The balance sheet of the spec's end-to-end example (§8). -/
def exampleBalance : Table :=
  ⟨["item", "2024-Q4", "2023-Q4"],
   [[CellVal.str "资产总计", CellVal.str "5,000,000", CellVal.str "4,000,000"],
    [CellVal.str "负债合计", CellVal.str "2,000,000", CellVal.str "1,000,000"]]⟩

/-- A minimal nonempty income statement accompanying the example. -/
def exampleIncome : Table :=
  ⟨["item", "2024-Q4", "2023-Q4"],
   [[CellVal.str "营业收入", CellVal.str "100", CellVal.str "50"]]⟩

/-- A minimal nonempty cash-flow statement accompanying the example. -/
def exampleCashflow : Table :=
  ⟨["item", "2024-Q4", "2023-Q4"],
   [[CellVal.str "经营活动产生的现金流量净额", CellVal.str "10", CellVal.str "5"]]⟩

/-- A balance sheet on which the current-ratio pseudo-row succeeds. -/
def exampleBalanceCR : Table :=
  ⟨["item", "c1", "c2"],
   [[CellVal.str "流动资产合计", CellVal.str "200", CellVal.str "150"],
    [CellVal.str "流动负债合计", CellVal.str "100", CellVal.str "100"]]⟩

/-- A balance sheet whose current total current liabilities are zero,
so the current-ratio pseudo-row divides by zero. -/
def exampleBalanceZ : Table :=
  ⟨["item", "c1", "c2"],
   [[CellVal.str "流动资产合计", CellVal.str "100", CellVal.str "100"],
    [CellVal.str "流动负债合计", CellVal.str "0", CellVal.str "100"]]⟩

theorem append_pct_ne_NA (s : String) : s ++ "%" ≠ "N/A" := by
  intro h
  have h2 : s.data ++ ['%'] = ['N', '/'] ++ ['A'] := by
    have h1 := congrArg String.data h
    simpa using h1
  have h3 := List.append_inj' h2 rfl
  exact absurd h3.2 (by decide)

theorem append_pct_ne_missing (s : String) : s ++ "%" ≠ "缺失" := by
  intro h
  have h2 : s.data ++ ['%'] = ['缺'] ++ ['失'] := by
    have h1 := congrArg String.data h
    simpa using h1
  have h3 := List.append_inj' h2 rfl
  exact absurd h3.2 (by decide)

theorem trendOf_spec (c p : ℚ) :
    (trendOf c p = "up" ↔ p < c) ∧ (trendOf c p = "down" ↔ c < p) ∧
      (trendOf c p = "neutral" ↔ c = p) := by
  unfold trendOf
  by_cases h1 : p < c
  · simp [h1, lt_asymm h1, ne_of_gt h1]
  · by_cases h2 : c < p
    · simp [h1, h2, ne_of_lt h2]
    · have he : c = p := le_antisymm (not_lt.1 h1) (not_lt.1 h2)
      simp [h1, h2, he]

theorem relChangeStr_spec (c p : ℚ) :
    (relChangeStr c p = "N/A" ↔ p ≤ 0) ∧
      (0 < p → relChangeStr c p = fmtSigned ((c - p) / p * 100) 0 ++ "%") := by
  unfold relChangeStr
  by_cases h : 0 < p
  · rw [if_pos h]
    exact ⟨⟨fun hh => absurd hh (append_pct_ne_NA _), fun hh => absurd h (not_lt.2 hh)⟩,
      fun _ => rfl⟩
  · rw [if_neg h]
    exact ⟨⟨fun _ => not_lt.1 h, fun _ => rfl⟩, fun hh => absurd hh h⟩

theorem calculate_ok_inv (b i cf : Table) (fd : FinancialData)
    (h : calculate_financial_indicators (Except.ok b) (Except.ok i) (Except.ok cf) = some fd) :
    fd = buildFinancialData b i cf ∧ 2 ≤ b.cols.length := by
  simp only [calculate_financial_indicators] at h
  split_ifs at h with h1 h2 h3 h4
  exact ⟨(Option.some.inj h).symm, not_lt.1 h4⟩

/-- C9: the indicator computation is all-or-nothing: for every fetch
outcome it returns `Option.none` (any exception or guard failure) or
the single complete `buildFinancialData` record holding every ratio and
every detail category; a fetch exception (an `Except.error`) always
yields `Option.none`.  There is no path returning a partial ratio set. -/
theorem c9_all_or_nothing :
    (∀ balance income cashflow : Except String Table,
        calculate_financial_indicators balance income cashflow = Option.none ∨
          ∃ b i cf, balance = Except.ok b ∧ income = Except.ok i ∧ cashflow = Except.ok cf ∧
            calculate_financial_indicators balance income cashflow =
              some (buildFinancialData b i cf)) ∧
      (∀ e income cashflow,
        calculate_financial_indicators (Except.error e) income cashflow = Option.none) ∧
      (∀ b e cashflow,
        calculate_financial_indicators (Except.ok b) (Except.error e) cashflow = Option.none) ∧
      (∀ b i e,
        calculate_financial_indicators (Except.ok b) (Except.ok i) (Except.error e) =
          Option.none) := by
  refine ⟨?_, ?_, ?_, ?_⟩
  · intro balance income cashflow
    cases balance with
    | error e => exact Or.inl rfl
    | ok b =>
      cases income with
      | error e => exact Or.inl rfl
      | ok i =>
        cases cashflow with
        | error e => exact Or.inl rfl
        | ok cf =>
          rcases hres : calculate_financial_indicators (Except.ok b) (Except.ok i)
              (Except.ok cf) with _ | fd
          · exact Or.inl rfl
          · exact Or.inr ⟨b, i, cf, rfl, rfl, rfl, by
              rw [(calculate_ok_inv b i cf fd hres).1]⟩
  · intro e income cashflow
    cases income <;> cases cashflow <;> rfl
  · intro b e cashflow
    cases cashflow <;> rfl
  · intro b i e
    rfl

/-- C8: for every successful computation the period pair comes from the
balance sheet's column list: the columns split as `c0 :: c1 :: rest`,
the report date is `c1` (index 1) and the previous date is `rest`'s
head when it exists, else `c1` again. -/
theorem c8_period_pair (b i cf : Table) (fd : FinancialData)
    (h : calculate_financial_indicators (Except.ok b) (Except.ok i) (Except.ok cf) = some fd) :
    ∃ c0 c1 rest, b.cols = c0 :: c1 :: rest ∧ fd.report_date = c1 ∧
      fd.previous_date = rest.headD c1 := by
  obtain ⟨hfd, hlen⟩ := calculate_ok_inv b i cf fd h
  subst hfd
  obtain ⟨c0, tail, hcols⟩ : ∃ c0 tail, b.cols = c0 :: tail := by
    cases hb : b.cols with
    | nil => rw [hb] at hlen; simp at hlen
    | cons x xs => exact ⟨x, xs, rfl⟩
  obtain ⟨c1, rest, htail⟩ : ∃ c1 rest, tail = c1 :: rest := by
    cases tail with
    | nil => rw [hcols] at hlen; simp at hlen
    | cons y ys => exact ⟨y, ys, rfl⟩
  refine ⟨c0, c1, rest, by rw [hcols, htail], ?_, ?_⟩
  · have hr : (buildFinancialData b i cf).report_date = currentColOf b := rfl
    rw [hr, currentColOf, hcols, htail]
    rfl
  · have hp : (buildFinancialData b i cf).previous_date = previousColOf b := rfl
    rw [hp, previousColOf, hcols, htail]
    cases rest with
    | nil => simp
    | cons z zs => simp

/-- C8 witness: on the example tables the report date is the column at
index 1 and the previous date the column at index 2. -/
theorem c8_period_pair_witness :
    (buildFinancialData exampleBalance exampleIncome exampleCashflow).report_date = "2024-Q4" ∧
      (buildFinancialData exampleBalance exampleIncome exampleCashflow).previous_date =
        "2023-Q4" := by
  obtain ⟨c0, c1, rest, hcols, h1, h2⟩ :=
    c8_period_pair exampleBalance exampleIncome exampleCashflow
      (buildFinancialData exampleBalance exampleIncome exampleCashflow) (by decide)
  have hc : exampleBalance.cols = ["item", "2024-Q4", "2023-Q4"] := rfl
  rw [hc] at hcols
  injection hcols with e0 hrest
  injection hrest with e1 hrest2
  subst e1
  subst hrest2
  exact ⟨h1, by simpa using h2⟩

/-- C2: for every successful computation the debt-ratio entry is built
from `pctOrZero liabilities assets` per period — which equals
liabilities / assets × 100 when assets > 0 and 0 when assets ≤ 0 —
formatted to 1 decimal with a percent sign, with trend on the raw
values and a signed absolute point-delta change; on the spec's example
balance sheet this yields "40.0%" / "25.0%" / "up" / "+15.0%". -/
theorem c2_debt_ratio (b i cf : Table) (fd : FinancialData)
    (h : calculate_financial_indicators (Except.ok b) (Except.ok i) (Except.ok cf) = some fd) :
    (∀ liab assets : ℚ,
        (0 < assets → pctOrZero liab assets = liab / assets * 100) ∧
          (assets ≤ 0 → pctOrZero liab assets = 0)) ∧
      fd.coreIndicators.debtRatio =
        { value := fmtFixed (pctOrZero (get_value b "负债合计" (currentColOf b))
              (get_value b "资产总计" (currentColOf b))) 1 ++ "%"
          previous := fmtFixed (pctOrZero (get_value b "负债合计" (previousColOf b))
              (get_value b "资产总计" (previousColOf b))) 1 ++ "%"
          trend := trendOf (pctOrZero (get_value b "负债合计" (currentColOf b))
              (get_value b "资产总计" (currentColOf b)))
            (pctOrZero (get_value b "负债合计" (previousColOf b))
              (get_value b "资产总计" (previousColOf b)))
          change := fmtSigned (pctOrZero (get_value b "负债合计" (currentColOf b))
                (get_value b "资产总计" (currentColOf b)) -
              pctOrZero (get_value b "负债合计" (previousColOf b))
                (get_value b "资产总计" (previousColOf b))) 1 ++ "%" } ∧
      (calculate_financial_indicators (Except.ok exampleBalance) (Except.ok exampleIncome)
            (Except.ok exampleCashflow)).map (fun r => r.coreIndicators.debtRatio) =
        some ⟨"40.0%", "25.0%", "up", "+15.0%"⟩ := by
  refine ⟨?_, ?_, by decide⟩
  · intro liab assets
    constructor
    · intro ha
      rw [pctOrZero, if_pos ha]
    · intro ha
      rw [pctOrZero, if_neg (not_lt.2 ha)]
  · obtain ⟨hfd, -⟩ := calculate_ok_inv b i cf fd h
    subst hfd
    rfl

/-- C2 witness: the concrete debt-ratio entry of the example. -/
theorem c2_debt_ratio_witness :
    (buildFinancialData exampleBalance exampleIncome exampleCashflow).coreIndicators.debtRatio =
      ⟨"40.0%", "25.0%", "up", "+15.0%"⟩ := by
  have h := c2_debt_ratio exampleBalance exampleIncome exampleCashflow
    (buildFinancialData exampleBalance exampleIncome exampleCashflow) (by decide)
  exact h.2.1.trans (by decide)

/-- C5: for every successful computation the change field of each of
the three turnover-style ratios is `relChangeStr current previous` over
the raw ratio values — which is `"N/A"` iff the raw previous value is
≤ 0 and otherwise the signed relative percent delta
`(current - previous) / previous * 100` with 0 decimals. -/
theorem c5_relative_change (b i cf : Table) (fd : FinancialData)
    (h : calculate_financial_indicators (Except.ok b) (Except.ok i) (Except.ok cf) = some fd) :
    (∀ c p : ℚ, (relChangeStr c p = "N/A" ↔ p ≤ 0) ∧
        (0 < p → relChangeStr c p = fmtSigned ((c - p) / p * 100) 0 ++ "%")) ∧
      fd.coreIndicators.payableTurnover.change =
        relChangeStr
          (ratioOrZero (get_value i "营业成本" (currentColOf b))
            (get_value b "应付账款" (currentColOf b)))
          (ratioOrZero (get_value i "营业成本" (previousColOf b))
            (get_value b "应付账款" (previousColOf b))) ∧
      fd.coreIndicators.profitCashRate.change =
        relChangeStr
          (ratioOrZero (get_value cf "经营活动产生的现金流量净额" (currentColOf b))
            (get_value i "净利润" (currentColOf b)))
          (ratioOrZero (get_value cf "经营活动产生的现金流量净额" (previousColOf b))
            (get_value i "净利润" (previousColOf b))) ∧
      fd.coreIndicators.receivableTurnover.change =
        relChangeStr
          (ratioOrZero (get_value i "营业收入" (currentColOf b))
            (get_value b "应收账款" (currentColOf b)))
          (ratioOrZero (get_value i "营业收入" (previousColOf b))
            (get_value b "应收账款" (previousColOf b))) := by
  obtain ⟨hfd, -⟩ := calculate_ok_inv b i cf fd h
  subst hfd
  exact ⟨relChangeStr_spec, rfl, rfl, rfl⟩

/-- C5 witness: on the example tables the previous payable-turnover
ratio is 0, so its change is the literal "N/A". -/
theorem c5_relative_change_witness :
    (buildFinancialData exampleBalance exampleIncome
        exampleCashflow).coreIndicators.payableTurnover.change = "N/A" := by
  have h := c5_relative_change exampleBalance exampleIncome exampleCashflow
    (buildFinancialData exampleBalance exampleIncome exampleCashflow) (by decide)
  rw [h.2.1]
  exact (h.1 _ _).1.mpr (by decide)

/-- C6: for every successful computation each of the five trend fields
is `trendOf current previous` over the raw (pre-formatting) ratio
values — `"up"` iff current > previous, `"down"` iff current <
previous, `"neutral"` iff they are exactly equal. -/
theorem c6_trend_raw (b i cf : Table) (fd : FinancialData)
    (h : calculate_financial_indicators (Except.ok b) (Except.ok i) (Except.ok cf) = some fd) :
    (∀ c p : ℚ, (trendOf c p = "up" ↔ c > p) ∧ (trendOf c p = "down" ↔ c < p) ∧
        (trendOf c p = "neutral" ↔ c = p)) ∧
      fd.coreIndicators.debtRatio.trend =
        trendOf (pctOrZero (get_value b "负债合计" (currentColOf b))
            (get_value b "资产总计" (currentColOf b)))
          (pctOrZero (get_value b "负债合计" (previousColOf b))
            (get_value b "资产总计" (previousColOf b))) ∧
      fd.coreIndicators.payableTurnover.trend =
        trendOf (ratioOrZero (get_value i "营业成本" (currentColOf b))
            (get_value b "应付账款" (currentColOf b)))
          (ratioOrZero (get_value i "营业成本" (previousColOf b))
            (get_value b "应付账款" (previousColOf b))) ∧
      fd.coreIndicators.profitCashRate.trend =
        trendOf (ratioOrZero (get_value cf "经营活动产生的现金流量净额" (currentColOf b))
            (get_value i "净利润" (currentColOf b)))
          (ratioOrZero (get_value cf "经营活动产生的现金流量净额" (previousColOf b))
            (get_value i "净利润" (previousColOf b))) ∧
      fd.coreIndicators.currentRatio.trend =
        trendOf (pctOrZero (get_value b "流动资产合计" (currentColOf b))
            (get_value b "流动负债合计" (currentColOf b)))
          (pctOrZero (get_value b "流动资产合计" (previousColOf b))
            (get_value b "流动负债合计" (previousColOf b))) ∧
      fd.coreIndicators.receivableTurnover.trend =
        trendOf (ratioOrZero (get_value i "营业收入" (currentColOf b))
            (get_value b "应收账款" (currentColOf b)))
          (ratioOrZero (get_value i "营业收入" (previousColOf b))
            (get_value b "应收账款" (previousColOf b))) := by
  obtain ⟨hfd, -⟩ := calculate_ok_inv b i cf fd h
  subst hfd
  exact ⟨trendOf_spec, rfl, rfl, rfl, rfl, rfl⟩

/-- C6 witness: on the example the raw debt ratios are 40 and 25, so
the trend field is "up". -/
theorem c6_trend_raw_witness :
    (buildFinancialData exampleBalance exampleIncome
        exampleCashflow).coreIndicators.debtRatio.trend = "up" := by
  have h := c6_trend_raw exampleBalance exampleIncome exampleCashflow
    (buildFinancialData exampleBalance exampleIncome exampleCashflow) (by decide)
  rw [h.2.1]
  exact (h.1 _ _).1.mpr (by decide)

theorem rmatchAt_lit (l : List Char) (s : List Char) :
    rmatchAt (l.map RTok.lit) s = l.isPrefixOf s := by
  induction l generalizing s with
  | nil => cases s <;> rfl
  | cons a as ih =>
    cases s with
    | nil => rfl
    | cons b bs => simp [rmatchAt, tokMatch, List.isPrefixOf, ih]

theorem rsearch_lit (l : List Char) (s : List Char) :
    rsearch (l.map RTok.lit) s = isSubstrChars l s := by
  induction s with
  | nil =>
    show rmatchAt (l.map RTok.lit) [] = l.isEmpty
    rw [rmatchAt_lit]
    cases l <;> rfl
  | cons c cs ih => simp [rsearch, isSubstrChars, rmatchAt_lit, ih]

theorem toPattern_no_meta (q : String) (h : ∀ c ∈ q.toList, isMetaChar c = false) :
    toPattern q = q.toList.map RTok.lit := by
  unfold toPattern
  apply List.map_congr_left
  intro c hc
  have hm := h c hc
  simp only [isMetaChar] at hm
  rw [if_neg]
  intro h46
  rw [h46] at hm
  simp at hm

theorem strContains_no_meta (s q : String) (h : ∀ c ∈ q.toList, isMetaChar c = false) :
    strContains s q = isSubstrOf q s := by
  unfold strContains isSubstrOf
  rw [toPattern_no_meta q h, rsearch_lit]

/-- C3 counterexample: `str.contains` treats the query as a regex, so
the query "a.c" (whose `'.'` matches any character) selects an entry
whose code and name do not contain "a.c" as a substring, while the
substring-containment search selects nothing. -/
theorem c3_search_counterexample :
    search_companies "a.c" [("000001", "abc")] = [("000001", "abc")] ∧
      isSubstrOf "a.c" "000001" = false ∧ isSubstrOf "a.c" "abc" = false ∧
      search_companies_spec "a.c" [("000001", "abc")] = [] := by decide

/-- C3 (amended): for every query whose (stripped) characters contain
no regex metacharacter, the search coincides with the spec's
case-sensitive substring-containment search: the entries whose code or
name contains the query, at most 10, in provider order. -/
theorem c3_search_substring (query : String) (directory : List (String × String))
    (h : ∀ c ∈ (pyStrip query).toList, isMetaChar c = false) :
    search_companies query directory = search_companies_spec query directory := by
  unfold search_companies search_companies_spec
  by_cases he : pyStrip query = ""
  · simp [he]
  · simp only [if_neg he]
    congr 1
    apply List.filter_congr
    intro e _
    rw [strContains_no_meta e.1 (pyStrip query) h, strContains_no_meta e.2 (pyStrip query) h]

/-- C3 witness: a metacharacter-free query on a concrete directory. -/
theorem c3_search_substring_witness :
    search_companies "000" [("000001", "平安银行"), ("600000", "浦发银行"), ("300750", "宁德时代")] =
      search_companies_spec "000"
        [("000001", "平安银行"), ("600000", "浦发银行"), ("300750", "宁德时代")] :=
  c3_search_substring "000" _ (by decide)

theorem digitChar_isDig (d : Nat) (hd : d < 10) :
    isDig (digitChar d) = true ∧ (digitChar d).toNat = 48 + d := by
  interval_cases d <;> exact ⟨by decide, by decide⟩

theorem natDigitsAux_append (fuel : Nat) : ∀ n acc,
    natDigitsAux fuel n acc = natDigitsAux fuel n [] ++ acc := by
  induction fuel with
  | zero => intro n acc; rfl
  | succ f ih =>
    intro n acc
    by_cases h : n < 10
    · simp [natDigitsAux, h]
    · simp only [natDigitsAux, if_neg h]
      rw [ih (n / 10) (digitChar (n % 10) :: acc), ih (n / 10) [digitChar (n % 10)]]
      simp

theorem natDigitsAux_digits (fuel : Nat) : ∀ n acc, (∀ c ∈ acc, isDig c = true) →
    ∀ c ∈ natDigitsAux fuel n acc, isDig c = true := by
  induction fuel with
  | zero => intro n acc hacc; exact hacc
  | succ f ih =>
    intro n acc hacc
    by_cases h : n < 10
    · simp only [natDigitsAux, if_pos h]
      intro c hc
      rcases List.mem_cons.1 hc with rfl | hc
      · exact (digitChar_isDig n h).1
      · exact hacc c hc
    · simp only [natDigitsAux, if_neg h]
      apply ih
      intro c hc
      rcases List.mem_cons.1 hc with rfl | hc
      · exact (digitChar_isDig (n % 10) (Nat.mod_lt n (by omega))).1
      · exact hacc c hc

theorem natDigitsAux_ne_nil (f n : Nat) : natDigitsAux (f + 1) n [] ≠ [] := by
  by_cases h : n < 10
  · simp [natDigitsAux, h]
  · simp only [natDigitsAux, if_neg h]
    rw [natDigitsAux_append]
    simp

theorem dval_append_singleton (xs : List Char) (c : Char) :
    dval (xs ++ [c]) = dval xs * 10 + (c.toNat - 48) := by
  simp [dval, List.foldl_append]

theorem dval_natDigitsAux (fuel : Nat) : ∀ n, n < 10 ^ fuel →
    dval (natDigitsAux fuel n []) = n := by
  induction fuel with
  | zero =>
    intro n h
    interval_cases n
    rfl
  | succ f ih =>
    intro n h
    by_cases hn : n < 10
    · simp only [natDigitsAux, if_pos hn]
      show dval [digitChar n] = n
      simp [dval, (digitChar_isDig n hn).2]
    · simp only [natDigitsAux, if_neg hn]
      rw [natDigitsAux_append, dval_append_singleton, (digitChar_isDig (n % 10)
        (Nat.mod_lt n (by omega))).2]
      have hdiv : n / 10 < 10 ^ f := by
        apply Nat.div_lt_of_lt_mul
        have e : 10 * 10 ^ f = 10 ^ (f + 1) := by ring
        omega
      rw [ih (n / 10) hdiv]
      omega

theorem natDigits_spec (n : Nat) :
    natDigits n ≠ [] ∧ (∀ c ∈ natDigits n, isDig c = true) ∧ dval (natDigits n) = n := by
  refine ⟨natDigitsAux_ne_nil n n, natDigitsAux_digits (n + 1) n [] (by simp), ?_⟩
  apply dval_natDigitsAux
  calc n < 10 ^ n := Nat.lt_pow_self (by omega) n
  _ ≤ 10 ^ (n + 1) := Nat.pow_le_pow_right (by omega) (by omega)

theorem parseNatDigits_natDigits (n : Nat) : parseNatDigits (natDigits n) = some n := by
  obtain ⟨h1, h2, h3⟩ := natDigits_spec n
  unfold parseNatDigits
  rw [if_neg (by simpa using h1), if_pos (List.all_eq_true.2 h2), h3]

theorem isDig_ne (c : Char) (h : isDig c = true) :
    c ≠ '.' ∧ c ≠ '-' ∧ c ≠ '+' ∧ c ≠ ',' := by
  simp only [isDig, Bool.and_eq_true, decide_eq_true_eq] at h
  refine ⟨?_, ?_, ?_, ?_⟩ <;> intro he <;> subst he <;> exact absurd h (by decide)

theorem splitAtDot_no_dot (cs : List Char) (h : ∀ c ∈ cs, c ≠ '.') :
    splitAtDot cs = (cs, Option.none) := by
  induction cs with
  | nil => rfl
  | cons c rest ih =>
    simp only [splitAtDot]
    rw [if_neg (h c (List.mem_cons_self c rest))]
    rw [ih (fun x hx => h x (List.mem_cons_of_mem c hx))]

theorem parseUnsigned_natDigits (n : Nat) : parseUnsigned (natDigits n) = some ((n : ℚ)) := by
  have hsplit : splitAtDot (natDigits n) = (natDigits n, Option.none) :=
    splitAtDot_no_dot _ (fun c hc => (isDig_ne c ((natDigits_spec n).2.1 c hc)).1)
  unfold parseUnsigned
  rw [hsplit]
  simp [parseNatDigits_natDigits]

theorem parseFloatChars_natDigits (n : Nat) : parseFloatChars (natDigits n) = some ((n : ℚ)) := by
  obtain ⟨h1, h2, -⟩ := natDigits_spec n
  cases hd : natDigits n with
  | nil => exact absurd hd h1
  | cons d rest =>
    have hdig : isDig d = true := h2 d (hd ▸ List.mem_cons_self d rest)
    obtain ⟨-, hne1, hne2, -⟩ := isDig_ne d hdig
    simp only [parseFloatChars]
    rw [if_neg hne1, if_neg hne2, ← hd, parseUnsigned_natDigits]

theorem parseFloatChars_neg_natDigits (n : Nat) :
    parseFloatChars ('-' :: natDigits n) = some (-(n : ℚ)) := by
  simp only [parseFloatChars]
  simp [parseUnsigned_natDigits]

theorem replaceFuel_comma (l : List Char) : ∀ fuel, l.length ≤ fuel →
    replaceFuel [','] [] fuel l = l.filter (fun c => c != ',') := by
  induction l with
  | nil => intro fuel _; cases fuel <;> rfl
  | cons c rest ih =>
    intro fuel hlen
    cases fuel with
    | zero => simp at hlen
    | succ f =>
      simp only [replaceFuel]
      by_cases hc : c = ','
      · subst hc
        rw [if_pos (by simp [List.isPrefixOf])]
        simp only [List.length_singleton, Nat.sub_self, List.drop_zero, List.nil_append]
        rw [ih f (by simpa using hlen)]
        simp
      · rw [if_neg (by simp [List.isPrefixOf, Ne.symm hc])]
        rw [ih f (by simpa using hlen)]
        simp [hc]

theorem stripCommas_eq (s : String) :
    stripCommas s = String.mk (s.data.filter (fun c => c != ',')) := by
  unfold stripCommas pyReplace
  congr 1
  exact replaceFuel_comma _ _ (le_refl _)

theorem groupChunks_filter (l : List Char) : ∀ k,
    (groupChunks l k).filter (fun c => c != ',') = l.filter (fun c => c != ',') := by
  induction l with
  | nil => intro k; rfl
  | cons c rest ih =>
    intro k
    cases k with
    | zero => simp [groupChunks, List.filter_cons, ih]
    | succ m => simp [groupChunks, List.filter_cons, ih]

theorem insertCommas_filter (l : List Char) :
    (insertCommas l).filter (fun c => c != ',') = l.filter (fun c => c != ',') := by
  unfold insertCommas
  rw [List.filter_reverse, groupChunks_filter, List.filter_reverse, List.reverse_reverse]

theorem natDigits_no_comma (m : Nat) :
    (natDigits m).filter (fun c => c != ',') = natDigits m := by
  apply List.filter_eq_self.mpr
  intro c hc
  have h := (isDig_ne c ((natDigits_spec m).2.1 c hc)).2.2.2
  simpa using h

theorem stripCommas_fmtComma0 (q : ℚ) :
    stripCommas (fmtComma0 q) =
      String.mk ((if q < 0 then ['-'] else []) ++
        natDigits ((roundHalfEven (qabs q)).toNat)) := by
  rw [stripCommas_eq]
  congr 1
  unfold fmtComma0
  by_cases h : q < 0
  · simp only [if_pos h, String.data_append]
    rw [List.filter_append, insertCommas_filter, natDigits_no_comma]
    rfl
  · simp only [if_neg h, String.data_append]
    rw [List.filter_append, insertCommas_filter, natDigits_no_comma]
    rfl

theorem parseFloat_fmtComma0 (q : ℚ) :
    parseFloat (stripCommas (fmtComma0 q)) =
      some (if q < 0 then -(((roundHalfEven (qabs q)).toNat : ℚ))
        else ((roundHalfEven (qabs q)).toNat : ℚ)) := by
  unfold parseFloat
  rw [stripCommas_fmtComma0]
  by_cases h : q < 0
  · simp only [if_pos h]
    exact parseFloatChars_neg_natDigits _
  · simp only [if_neg h]
    exact parseFloatChars_natDigits _

theorem fmtComma0_ne_missing (q : ℚ) : fmtComma0 q ≠ "缺失" := by
  intro h
  have hp := parseFloat_fmtComma0 q
  rw [h] at hp
  have h2 : parseFloat (stripCommas "缺失") = Option.none := by decide
  rw [h2] at hp
  exact Option.noConfusion hp

/-- C4: on formatted detail values (a `"缺失"` sentinel or a
comma-grouped number), `calc_change` yields the sentinel iff at least
one side is the sentinel (checked before any parsing); otherwise it
yields `"N/A"` exactly when the re-parsed previous value is zero, and
otherwise the signed 0-decimal relative percent delta of the re-parsed
values. -/
theorem c4_detail_change (current previous : String)
    (hc : isFormattedVal current) (hp : isFormattedVal previous) :
    (calc_change current previous = "缺失" ↔ (current = "缺失" ∨ previous = "缺失")) ∧
      (calc_change current previous = "N/A" ↔
        (current ≠ "缺失" ∧ previous ≠ "缺失" ∧
          parseFloat (stripCommas previous) = some 0)) ∧
      (∀ vc vp : ℚ, parseFloat (stripCommas current) = some vc →
        parseFloat (stripCommas previous) = some vp → vp ≠ 0 →
        calc_change current previous = fmtSigned ((vc - vp) / vp * 100) 0 ++ "%") := by
  rcases hc with rfl | ⟨qc, rfl⟩
  · have hcc : calc_change "缺失" previous = "缺失" := by
      unfold calc_change
      rw [if_pos (Or.inl rfl)]
    refine ⟨⟨fun _ => Or.inl rfl, fun _ => hcc⟩, ⟨?_, fun h3 => absurd rfl h3.1⟩, ?_⟩
    · intro hna
      rw [hcc] at hna
      exact absurd hna (by decide)
    · intro vc vp hvc _ _
      have hm : parseFloat (stripCommas "缺失") = Option.none := by decide
      rw [hm] at hvc
      exact Option.noConfusion hvc
  · rcases hp with rfl | ⟨qp, rfl⟩
    · have hcc : calc_change (fmtComma0 qc) "缺失" = "缺失" := by
        unfold calc_change
        rw [if_pos (Or.inr rfl)]
      refine ⟨⟨fun _ => Or.inr rfl, fun _ => hcc⟩, ⟨?_, fun h3 => absurd rfl h3.2.1⟩, ?_⟩
      · intro hna
        rw [hcc] at hna
        exact absurd hna (by decide)
      · intro vc vp _ hvp _
        have hm : parseFloat (stripCommas "缺失") = Option.none := by decide
        rw [hm] at hvp
        exact Option.noConfusion hvp
    · have hnc : fmtComma0 qc ≠ "缺失" := fmtComma0_ne_missing qc
      have hnp : fmtComma0 qp ≠ "缺失" := fmtComma0_ne_missing qp
      obtain ⟨vc, hvc⟩ : ∃ v, parseFloat (stripCommas (fmtComma0 qc)) = some v :=
        ⟨_, parseFloat_fmtComma0 qc⟩
      obtain ⟨vp, hvp⟩ : ∃ v, parseFloat (stripCommas (fmtComma0 qp)) = some v :=
        ⟨_, parseFloat_fmtComma0 qp⟩
      have hcalc : calc_change (fmtComma0 qc) (fmtComma0 qp) =
          (if vp = 0 then "N/A" else fmtSigned ((vc - vp) / vp * 100) 0 ++ "%") := by
        unfold calc_change
        rw [if_neg (not_or.2 ⟨hnc, hnp⟩)]
        simp only [hvc, hvp]
      refine ⟨⟨?_, ?_⟩, ⟨?_, ?_⟩, ?_⟩
      · intro hm
        rw [hcalc] at hm
        by_cases hz : vp = 0
        · rw [if_pos hz] at hm
          exact absurd hm (by decide)
        · rw [if_neg hz] at hm
          exact absurd hm (append_pct_ne_missing _)
      · intro hor
        rcases hor with h | h
        · exact absurd h hnc
        · exact absurd h hnp
      · intro hna
        rw [hcalc] at hna
        by_cases hz : vp = 0
        · exact ⟨hnc, hnp, by rw [hvp, hz]⟩
        · rw [if_neg hz] at hna
          exact absurd hna (append_pct_ne_NA _)
      · rintro ⟨-, -, hz⟩
        have hvp0 : vp = 0 := by
          rw [hvp] at hz
          exact Option.some.inj hz
        rw [hcalc, if_pos hvp0]
      · intro vc' vp' hvc' hvp' hz
        have e1 : vc' = vc := by
          rw [hvc] at hvc'
          exact (Option.some.inj hvc').symm
        have e2 : vp' = vp := by
          rw [hvp] at hvp'
          exact (Option.some.inj hvp').symm
        subst e1
        subst e2
        rw [hcalc, if_neg hz]

/-- C4 witness: concrete formatted inputs exercising the three rules. -/
theorem c4_detail_change_witness :
    calc_change "100" "50" = "+100%" ∧ calc_change "100" "0" = "N/A" ∧
      calc_change "缺失" "50" = "缺失" := by
  have h1 := c4_detail_change "100" "50" (Or.inr ⟨100, by decide⟩) (Or.inr ⟨50, by decide⟩)
  have h2 := c4_detail_change "100" "0" (Or.inr ⟨100, by decide⟩) (Or.inr ⟨0, by decide⟩)
  have h3 := c4_detail_change "缺失" "50" (Or.inl rfl) (Or.inr ⟨50, by decide⟩)
  refine ⟨?_, ?_, ?_⟩
  · have hd := h1.2.2 100 50 (by decide) (by decide) (by decide)
    exact hd.trans (by decide)
  · exact h2.2.1.mpr ⟨by decide, by decide, by decide⟩
  · exact h3.1.mpr (Or.inl rfl)

/-- C7: in the `'cash'` category the `'流动比率'` entry is the computed
pseudo-row (not a table lookup): whenever its four balance-sheet inputs
parse and neither liabilities value is zero, each period's value is
current assets / current liabilities × 100 rendered as a 0-decimal
percent string (independently of the §4.2 `currentRatio` entry), and
the change is the signed point delta of the values parsed back out of
those two percent strings. -/
theorem c7_current_ratio_pseudo_row (balance cashflow income : Table) (cc pc : String)
    (a l a2 l2 : ℚ)
    (ha : parseFloat (stripCommas (get_value_detail balance "流动资产合计" cc)) = some a)
    (hl : parseFloat (stripCommas (get_value_detail balance "流动负债合计" cc)) = some l)
    (ha2 : parseFloat (stripCommas (get_value_detail balance "流动资产合计" pc)) = some a2)
    (hl2 : parseFloat (stripCommas (get_value_detail balance "流动负债合计" pc)) = some l2)
    (hlz : l ≠ 0) (hl2z : l2 ≠ 0) (vc vp : ℚ)
    (hvc : parseFloat ((fmtFixed (a / l * 100) 0 ++ "%").dropRight 1) = some vc)
    (hvp : parseFloat ((fmtFixed (a2 / l2 * 100) 0 ++ "%").dropRight 1) = some vp) :
    (extract_detail_data balance cashflow income cc pc "cash").lookup "流动比率" =
      some ⟨fmtFixed (a / l * 100) 0 ++ "%", fmtFixed (a2 / l2 * 100) 0 ++ "%",
        fmtSigned (vc - vp) 0 ++ "%"⟩ := by
  have hrow : currentRatioRow balance cc pc =
      ⟨fmtFixed (a / l * 100) 0 ++ "%", fmtFixed (a2 / l2 * 100) 0 ++ "%",
        fmtSigned (vc - vp) 0 ++ "%"⟩ := by
    unfold currentRatioRow
    simp only [ha, hl, ha2, hl2]
    rw [if_neg (by simp [hlz, hl2z])]
    simp only [hvc, hvp]
  unfold extract_detail_data
  rw [if_pos rfl]
  simp [List.lookup, hrow]

/-- C7 witness: a concrete balance sheet with current assets 200/150
and current liabilities 100/100 yields "200%", "150%", "+50%". -/
theorem c7_current_ratio_pseudo_row_witness :
    (extract_detail_data exampleBalanceCR exampleCashflow exampleIncome "c1" "c2"
        "cash").lookup "流动比率" = some ⟨"200%", "150%", "+50%"⟩ := by
  have h := c7_current_ratio_pseudo_row exampleBalanceCR exampleCashflow exampleIncome
    "c1" "c2" 200 100 150 100 (by decide) (by decide) (by decide) (by decide)
    (by decide) (by decide) 200 150 (by decide) (by decide)
  exact h.trans (by decide)

/-- C10: whenever a current-ratio input is the missing sentinel or a
total-current-liabilities value is zero (division by zero), the whole
pseudo-row is the missing-sentinel triple; the pseudo-row's change is
never "N/A", unlike an ordinary detail item with a zero previous
value. -/
theorem c10_pseudo_row_missing :
    (∀ (balance : Table) (cc pc : String),
        (get_value_detail balance "流动资产合计" cc = "缺失" ∨
            get_value_detail balance "流动负债合计" cc = "缺失" ∨
            get_value_detail balance "流动资产合计" pc = "缺失" ∨
            get_value_detail balance "流动负债合计" pc = "缺失" ∨
            parseFloat (stripCommas (get_value_detail balance "流动负债合计" cc)) = some 0 ∨
            parseFloat (stripCommas (get_value_detail balance "流动负债合计" pc)) = some 0) →
        currentRatioRow balance cc pc = ⟨"缺失", "缺失", "缺失"⟩) ∧
      (∀ (balance : Table) (cc pc : String),
        (currentRatioRow balance cc pc).change ≠ "N/A") ∧
      calc_change "100" "0" = "N/A" ∧ calc_change "100" "0" ≠ "缺失" := by
  have hmiss : parseFloat (stripCommas "缺失") = Option.none := by decide
  refine ⟨?_, ?_, by decide, by decide⟩
  · intro balance cc pc hcond
    rcases hA : parseFloat (stripCommas (get_value_detail balance "流动资产合计" cc))
      with _ | a
    · simp [currentRatioRow, hA]
    rcases hL : parseFloat (stripCommas (get_value_detail balance "流动负债合计" cc))
      with _ | l
    · simp [currentRatioRow, hA, hL]
    rcases hA2 : parseFloat (stripCommas (get_value_detail balance "流动资产合计" pc))
      with _ | a2
    · simp [currentRatioRow, hA, hL, hA2]
    rcases hL2 : parseFloat (stripCommas (get_value_detail balance "流动负债合计" pc))
      with _ | l2
    · simp [currentRatioRow, hA, hL, hA2, hL2]
    rcases hcond with hm | hm | hm | hm | hz | hz
    · rw [hm, hmiss] at hA
      exact Option.noConfusion hA
    · rw [hm, hmiss] at hL
      exact Option.noConfusion hL
    · rw [hm, hmiss] at hA2
      exact Option.noConfusion hA2
    · rw [hm, hmiss] at hL2
      exact Option.noConfusion hL2
    · rw [hL] at hz
      simp [currentRatioRow, hA, hL, hA2, hL2, Option.some.inj hz]
    · rw [hL2] at hz
      simp [currentRatioRow, hA, hL, hA2, hL2, Option.some.inj hz]
  · intro balance cc pc
    simp only [currentRatioRow]
    rcases parseFloat (stripCommas (get_value_detail balance "流动资产合计" cc)) with _ | a
    · exact (by decide : ("缺失" : String) ≠ "N/A")
    rcases parseFloat (stripCommas (get_value_detail balance "流动负债合计" cc)) with _ | l
    · exact (by decide : ("缺失" : String) ≠ "N/A")
    rcases parseFloat (stripCommas (get_value_detail balance "流动资产合计" pc)) with _ | a2
    · exact (by decide : ("缺失" : String) ≠ "N/A")
    rcases parseFloat (stripCommas (get_value_detail balance "流动负债合计" pc)) with _ | l2
    · exact (by decide : ("缺失" : String) ≠ "N/A")
    dsimp only
    by_cases hz : l = 0 ∨ l2 = 0
    · rw [if_pos hz]
      exact (by decide : ("缺失" : String) ≠ "N/A")
    · rw [if_neg hz]
      rcases parseFloat ((fmtFixed (a / l * 100) 0 ++ "%").dropRight 1) with _ | vc
      · exact (by decide : ("缺失" : String) ≠ "N/A")
      rcases parseFloat ((fmtFixed (a2 / l2 * 100) 0 ++ "%").dropRight 1) with _ | vp
      · exact (by decide : ("缺失" : String) ≠ "N/A")
      exact append_pct_ne_NA _

/-- C10 witness: a zero current total-current-liabilities cell drives
the whole pseudo-row to the sentinel, and its change is not "N/A". -/
theorem c10_pseudo_row_missing_witness :
    currentRatioRow exampleBalanceZ "c1" "c2" = ⟨"缺失", "缺失", "缺失"⟩ ∧
      (currentRatioRow exampleBalanceZ "c1" "c2").change ≠ "N/A" := by
  have h := c10_pseudo_row_missing
  exact ⟨h.1 exampleBalanceZ "c1" "c2"
      (Or.inr (Or.inr (Or.inr (Or.inr (Or.inl (by decide)))))),
    h.2.1 exampleBalanceZ "c1" "c2"⟩

/-- C1: the ratio cell resolver agrees with the spec's resolver on
every table, label and period column; a missing row yields 0; a string
cell has its comma separators stripped and parses as a float
("1,234,567" → 1234567); an empty value, a dash placeholder, a `None`
cell, an unparseable value or an absent period column all yield 0 —
the resolver is a total function and never raises. -/
theorem c1_cell_resolver :
    (∀ t label period, get_value t label period = resolveSpec t label period) ∧
      (∀ t label period, lookupRow t label = Option.none → get_value t label period = 0) ∧
      get_value ⟨["item", "p"], [[CellVal.str "资产总计", CellVal.str "1,234,567"]]⟩
        "资产总计" "p" = 1234567 ∧
      get_value ⟨["item", "p"], [[CellVal.str "负债合计", CellVal.str "--"]]⟩
        "负债合计" "p" = 0 ∧
      get_value ⟨["item", "p"], [[CellVal.str "负债合计", CellVal.str ""]]⟩
        "负债合计" "p" = 0 ∧
      get_value ⟨["item", "p"], [[CellVal.str "负债合计", CellVal.none]]⟩
        "负债合计" "p" = 0 ∧
      get_value ⟨["item", "p"], [[CellVal.str "负债合计", CellVal.str "n/a"]]⟩
        "负债合计" "p" = 0 ∧
      get_value ⟨["item", "p"], [[CellVal.str "负债合计", CellVal.str "1"]]⟩
        "负债合计" "q" = 0 := by
  refine ⟨?_, ?_, by decide, by decide, by decide, by decide, by decide, by decide⟩
  · intro t label period
    unfold get_value resolveSpec
    cases hr : lookupRow t label with
    | none => rfl
    | some row =>
      dsimp only
      cases hc : getCell t row period with
      | none => rfl
      | some cell =>
        dsimp only
        cases cell with
        | none => rfl
        | num q => rfl
        | str s =>
          dsimp only
          by_cases h1 : cleanNumStr s = ""
          · rw [h1]
            decide
          · by_cases h2 : cleanNumStr s = "--"
            · rw [h2]
              decide
            · rw [if_neg (by simp [h1, h2]), if_neg h1]
              cases parseFloat (cleanNumStr s) <;> rfl
  · intro t label period h
    unfold get_value
    rw [h]

/-- C1 witness: a label absent from the table resolves to 0. -/
theorem c1_cell_resolver_witness :
    lookupRow ⟨["item", "p"], []⟩ "资产总计" = Option.none ∧
      get_value ⟨["item", "p"], []⟩ "资产总计" "p" = 0 :=
  ⟨by decide, c1_cell_resolver.2.1 ⟨["item", "p"], []⟩ "资产总计" "p" (by decide)⟩
